import Mathlib

/-!
# Verification of the v1→v2 dump compatibility adapter

Shallow embedding of `dump/src/reader/compat/v1_to_v2.rs`: the data model of
the v1 and v2 dump schemas as far as the adapter touches them, the field and
record translators, and the `CompatV1ToV2` adapter itself, together with
theorems checking the specified properties.

Timestamps (`time::OffsetDateTime`) and durations are modelled as exact
rational numbers of seconds (every `f64` value is a rational, and the
timestamp arithmetic performed by the adapter is a single subtraction).
`uuid::Uuid` is modelled by its 128-bit integer value.
-/

namespace MeiliDump

/-- A dump-reading error (`crate::Error`); its payload is irrelevant to the
adapter, which only passes errors through. -/
structure DumpError where
  msg : String
deriving DecidableEq, Repr

/-- `uuid::Uuid`, modelled as its 128-bit value. -/
structure Uuid where
  val : Nat
deriving DecidableEq, Repr

/-- `uuid::Uuid::from_u128`: builds a Uuid from a 128-bit integer
(a `Nat` argument is reduced modulo `2 ^ 128`, as a `u128` would be). -/
def Uuid.fromU128 (n : Nat) : Uuid :=
  ⟨n % 2 ^ 128⟩

/-- An opaque document record; passed through unchanged by the adapter. -/
structure Document where
  json : String
deriving DecidableEq, Repr

/-- `crate::IndexMetadata`; only passed through by the adapter. -/
structure IndexMetadata where
  uid : String
  primaryKey : Option String
deriving DecidableEq, Repr

/-! ## v1 settings -/

/-- `v1::settings::RankingRule`. -/
inductive RankingRuleV1 where
  | typo
  | words
  | proximity
  | attribute
  | wordsPosition
  | exactness
  | asc (field : String)
  | desc (field : String)
deriving DecidableEq, Repr

/-- `v1::settings::UpdateState<T>`: the tri-state partial-update marker. -/
inductive UpdateState (α : Type) where
  | update (value : α)
  | clear
  | nothing
deriving DecidableEq, Repr

/-- `v1::settings::Settings` (the checked, per-index settings record of v1).
Double options: outer = field present in the record, inner = value vs null. -/
structure SettingsV1 where
  displayed_attributes : Option (Option (List String))
  searchable_attributes : Option (Option (List String))
  attributes_for_faceting : Option (Option (List String))
  ranking_rules : Option (Option (List String))
  stop_words : Option (Option (List String))
  synonyms : Option (Option (List (String × List String)))
  distinct_attribute : Option (Option String)
deriving DecidableEq, Repr

/-- `v1::settings::SettingsUpdate`: the partial-update record, one tri-state
marker per field. -/
structure SettingsUpdateV1 where
  displayed_attributes : UpdateState (List String)
  searchable_attributes : UpdateState (List String)
  attributes_for_faceting : UpdateState (List String)
  ranking_rules : UpdateState (List RankingRuleV1)
  stop_words : UpdateState (List String)
  synonyms : UpdateState (List (String × List String))
  distinct_attribute : UpdateState String
deriving DecidableEq, Repr

/-- Modelled from the spec: `v1::settings::RankingRule::from_str` lives in the
v1 reader module, outside the given slice. The source's ranking-rule list
mixes abstract criteria (typo, words, proximity, attribute, exactness, the
discontinued wordsPosition) with positional sort directives written
`asc(field)` / `desc(field)`; any other string fails to parse. -/
def rankingRuleFromStr (s : String) : Except Unit RankingRuleV1 :=
  let cs := s.toList
  if s = "typo" then .ok .typo
  else if s = "words" then .ok .words
  else if s = "proximity" then .ok .proximity
  else if s = "attribute" then .ok .attribute
  else if s = "wordsPosition" then .ok .wordsPosition
  else if s = "exactness" then .ok .exactness
  else if "asc(".toList.isPrefixOf cs && cs.getLast? == some ')' then
    .ok (.asc (String.mk (cs.drop 4).dropLast))
  else if "desc(".toList.isPrefixOf cs && cs.getLast? == some ')' then
    .ok (.desc (String.mk (cs.drop 5).dropLast))
  else .error ()

/-- Decidable equality for dump-reading results, so that concrete runs of the
adapter can be checked by evaluation. -/
instance {ε α : Type} [DecidableEq ε] [DecidableEq α] : DecidableEq (Except ε α) := fun x y =>
  match x, y with
  | .ok a, .ok b => if h : a = b then .isTrue (by rw [h]) else .isFalse (by simp [h])
  | .error a, .error b => if h : a = b then .isTrue (by rw [h]) else .isFalse (by simp [h])
  | .ok _, .error _ => .isFalse (by simp)
  | .error _, .ok _ => .isFalse (by simp)

/-! ## v1 updates (task log) -/

/-- `v1::update::UpdateType`: the kind of a v1 update. -/
inductive UpdateTypeV1 where
  | clearAll
  | customs
  | documentsAddition (number : Nat)
  | documentsPartial (number : Nat)
  | documentsDeletion (number : Nat)
  | settings (settings : SettingsUpdateV1)
deriving DecidableEq, Repr

/-- The content of a v1 `Enqueued` update (only its id is consulted by the
adapter, for the warning). -/
structure EnqueuedContentV1 where
  update_id : Nat
deriving DecidableEq, Repr

/-- The content of a v1 `Processed` update. `processed_at` and `enqueued_at`
are timestamps (seconds), `duration` the source-reported elapsed seconds. -/
structure ProcessedContentV1 where
  update_id : Nat
  update_type : UpdateTypeV1
  enqueued_at : ℚ
  processed_at : ℚ
  duration : ℚ
deriving DecidableEq, Repr

/-- The content of a v1 `Failed` update. -/
structure FailedContentV1 where
  update_id : Nat
  update_type : UpdateTypeV1
  enqueued_at : ℚ
  processed_at : ℚ
  duration : ℚ
  error : Option String
  error_code : Option String
  error_type : Option String
  error_link : Option String
deriving DecidableEq, Repr

/-- `v1::update::UpdateStatus`. -/
inductive UpdateStatusV1 where
  | enqueued (content : EnqueuedContentV1)
  | failed (content : FailedContentV1)
  | processed (content : ProcessedContentV1)
deriving DecidableEq, Repr

/-- The status of a v1 update, as named by the spec. -/
def UpdateStatusV1.isProcessedOrFailed : UpdateStatusV1 → Bool
  | .enqueued _ => false
  | .failed _ => true
  | .processed _ => true

/-- The update kind of a v1 task, when it has one (`Enqueued` content in v1
does not carry a deserialized kind). -/
def UpdateStatusV1.updateType : UpdateStatusV1 → Option UpdateTypeV1
  | .enqueued _ => none
  | .failed c => some c.update_type
  | .processed c => some c.update_type

/-! ## v2 settings -/

/-- `v2::settings::Criterion`. -/
inductive CriterionV2 where
  | typo
  | words
  | proximity
  | attribute
  | exactness
  | asc (field : String)
  | desc (field : String)
deriving DecidableEq, Repr

/-- Modelled from the spec: `Display for v2::settings::Criterion` lives in the
v2 reader module, outside the given slice; it renders each criterion back to
its settings string, sort directives as `asc(field)` / `desc(field)`. -/
def CriterionV2.render : CriterionV2 → String
  | .typo => "typo"
  | .words => "words"
  | .proximity => "proximity"
  | .attribute => "attribute"
  | .exactness => "exactness"
  | .asc field => "asc(" ++ field ++ ")"
  | .desc field => "desc(" ++ field ++ ")"

/-- The validation-state tag of v2 settings (`v2::settings::Checked` /
`v2::settings::Unchecked`), a phantom type parameter. -/
inductive VState where
  | checked
  | unchecked
deriving DecidableEq, Repr

/-- `v2::settings::Settings<K>`: the v2 settings record, generic over the
validation-state tag `K` (phantom: no runtime representation).
`BTreeSet<String>` fields are modelled as lists in sorted order. -/
structure SettingsV2 (K : VState) where
  displayed_attributes : Option (Option (List String))
  searchable_attributes : Option (Option (List String))
  filterable_attributes : Option (Option (List String))
  ranking_rules : Option (Option (List String))
  stop_words : Option (Option (List String))
  synonyms : Option (Option (List (String × List String)))
  distinct_attribute : Option (Option String)
deriving DecidableEq, Repr

/-- Insert a string into a sorted list without duplicating it: the effect of
inserting into a `BTreeSet<String>`. -/
def btreeInsert (s : String) : List String → List String
  | [] => [s]
  | x :: xs =>
    if s < x then s :: x :: xs
    else if s = x then x :: xs
    else x :: btreeInsert s xs

/-- `collect()` from an iterator of strings into a `BTreeSet<String>`,
modelled as the sorted deduplicated list. -/
def btreeCollect (l : List String) : List String :=
  l.foldl (fun acc s => btreeInsert s acc) []

/-- Modelled from the spec: `v2::settings::Settings::<Unchecked>::check`, the
validation pass, lives in the v2 reader module, outside the given slice. It
cross-validates the fields and re-tags the record as `Checked`; the adapter
relies only on the re-tagging. -/
def SettingsV2.check (s : SettingsV2 .unchecked) : SettingsV2 .checked :=
  { displayed_attributes := s.displayed_attributes
    searchable_attributes := s.searchable_attributes
    filterable_attributes := s.filterable_attributes
    ranking_rules := s.ranking_rules
    stop_words := s.stop_words
    synonyms := s.synonyms
    distinct_attribute := s.distinct_attribute }

/-! ## v2 updates -/

/-- `v2::updates::IndexDocumentsMethod`. -/
inductive IndexDocumentsMethodV2 where
  | replaceDocuments
  | updateDocuments
deriving DecidableEq, Repr

/-- `v2::updates::UpdateFormat` (only Json is produced by the adapter). -/
inductive UpdateFormatV2 where
  | json
deriving DecidableEq, Repr

/-- `v2::updates::UpdateMeta`: what kind of job a v2 update is. -/
inductive UpdateMetaV2 where
  | clearDocuments
  | documentsAddition (method : IndexDocumentsMethodV2) (format : UpdateFormatV2)
      (primary_key : Option String)
  | deleteDocuments (ids : List String)
  | settings (settings : SettingsV2 .unchecked)
deriving DecidableEq, Repr

/-- `v2::updates::UpdateResult`: the outcome payload of a processed update.
Counts are `u64` values. -/
inductive UpdateResultV2 where
  | documentsAddition (nb_documents : Nat)
  | documentDeletion (deleted : Nat)
  | other
deriving DecidableEq, Repr

/-- `u64::MAX`, the sentinel deletion count meaning "all documents". -/
def u64Max : Nat := 2 ^ 64 - 1

/-- `v2::updates::Enqueued`. `content` is the optional update-file uuid,
always `none` when synthesized by the adapter. -/
structure EnqueuedV2 where
  update_id : Nat
  meta : UpdateMetaV2
  enqueued_at : ℚ
  content : Option Uuid
deriving DecidableEq, Repr

/-- `v2::updates::Processing`. -/
structure ProcessingV2 where
  source : EnqueuedV2
  started_processing_at : ℚ
deriving DecidableEq, Repr

/-- `v2::ResponseError`. `code` is the HTTP status code,
`http::StatusCode::default()` being 200. -/
structure ResponseErrorV2 where
  code : Nat
  message : String
  error_code : String
  error_type : String
  error_link : String
deriving DecidableEq, Repr

/-- `v2::updates::Failed`. -/
structure FailedV2 where
  source : ProcessingV2
  error : ResponseErrorV2
  failed_at : ℚ
deriving DecidableEq, Repr

/-- `v2::updates::Processed`. -/
structure ProcessedV2 where
  success : UpdateResultV2
  processed_at : ℚ
  source : ProcessingV2
deriving DecidableEq, Repr

/-- `v2::updates::UpdateStatus` (only the two variants the adapter can
produce ever occur in its output). -/
inductive UpdateStatusV2 where
  | failed (content : FailedV2)
  | processed (content : ProcessedV2)
deriving DecidableEq, Repr

/-- `v2::Task`: a task record paired with the uuid of its owning index. -/
structure TaskV2 where
  uuid : Uuid
  update : UpdateStatusV2
deriving DecidableEq, Repr

/-- `v2::UpdateFile` (never produced by the v1→v2 adapter; kept abstract). -/
structure UpdateFileV2 where
  id : Uuid
deriving DecidableEq, Repr

/-- `v2::meta::IndexUuid`: index name paired with its stable identifier. -/
structure IndexUuidV2 where
  uid : String
  uuid : Uuid
deriving DecidableEq, Repr

/-! ## Field translators (`v1_to_v2.rs` lines 103–325) -/

/-- `impl<T> From<v1::settings::UpdateState<T>> for Option<Option<T>>`
(lines 317–325): the tri-state field-update translation. -/
def updateStateToV2 {α : Type} : UpdateState α → Option (Option α)
  | .update new_value => some (some new_value)
  | .clear => some none
  | .nothing => none

/-- `impl From<v1::settings::RankingRule> for Option<v2::settings::Criterion>`
(lines 295–315): per-rule translation; the discontinued `WordsPosition` rule
maps to nothing (dropped with a warning). -/
def rankingRuleToCriterion : RankingRuleV1 → Option CriterionV2
  | .typo => some .typo
  | .words => some .words
  | .proximity => some .proximity
  | .attribute => some .attribute
  | .wordsPosition => none
  | .exactness => some .exactness
  | .asc field_name => some (.asc field_name)
  | .desc field_name => some (.desc field_name)

/-- The ranking-rule list translation of the `SettingsUpdate` path
(lines 265–276): filter each rule through the criterion mapping, then render
each surviving criterion back to its settings string. -/
def translateRankingRules (rules : List RankingRuleV1) : List String :=
  (rules.filterMap rankingRuleToCriterion).map CriterionV2.render

/-- The ranking-rule string translation of the checked-`Settings` path
(lines 115–124): parse the string as a v1 rule; on success map it through the
criterion mapping (possibly dropping it), on failure keep it verbatim. -/
def translateRankingRuleStr (rule : String) : Option String :=
  match rankingRuleFromStr rule with
  | .ok ranking_rule => (rankingRuleToCriterion ranking_rule).map CriterionV2.render
  | .error () => some rule

/-- `impl From<v1::settings::Settings> for v2::Settings<v2::Unchecked>`
(lines 103–140). -/
def settingsV1ToV2 (source : SettingsV1) : SettingsV2 .unchecked :=
  { displayed_attributes :=
      source.displayed_attributes.map (fun opt => opt.map btreeCollect)
    searchable_attributes := source.searchable_attributes
    filterable_attributes :=
      source.attributes_for_faceting.map (fun opt => opt.map id)
    ranking_rules :=
      source.ranking_rules.map (fun opt =>
        opt.map (fun ranking_rules => ranking_rules.filterMap translateRankingRuleStr))
    stop_words := source.stop_words
    synonyms := source.synonyms
    distinct_attribute := source.distinct_attribute }

/-- `impl From<v1::settings::SettingsUpdate> for v2::Settings<v2::Unchecked>`
(lines 252–293): apply the tri-state translation to each field, with the
element-wise ranking-rule filtering inside the "set" case. -/
def settingsUpdateToV2 (source : SettingsUpdateV1) : SettingsV2 .unchecked :=
  { displayed_attributes :=
      (updateStateToV2 source.displayed_attributes).map (fun opt => opt.map id)
    searchable_attributes := updateStateToV2 source.searchable_attributes
    filterable_attributes :=
      (updateStateToV2 source.attributes_for_faceting).map (fun opt => opt.map id)
    ranking_rules :=
      (updateStateToV2 source.ranking_rules).map (fun opt =>
        opt.map translateRankingRules)
    stop_words := updateStateToV2 source.stop_words
    synonyms := updateStateToV2 source.synonyms
    distinct_attribute := updateStateToV2 source.distinct_attribute }

/-- `http::StatusCode::default()`: 200 OK. -/
def statusCodeDefault : Nat := 200

/-- `impl From<v1::update::UpdateType> for Option<v2::updates::UpdateMeta>`
(lines 220–250): the update-metadata translation; the discontinued `Customs`
kind maps to nothing (dropped with a warning). -/
def updateTypeToMetaV2 : UpdateTypeV1 → Option UpdateMetaV2
  | .clearAll => some .clearDocuments
  | .customs => none
  | .documentsAddition _ =>
    some (.documentsAddition .replaceDocuments .json none)
  | .documentsPartial _ =>
    some (.documentsAddition .updateDocuments .json none)
  | .documentsDeletion _ => some (.deleteDocuments [])
  | .settings settings => some (.settings (settingsUpdateToV2 settings))

/-- The outcome payload of a processed v1 update (the `success` match of
lines 183–202). The `number as u64` cast of the deletion arm is lossless on
the 64-bit platform the reader targets. -/
def updateResultOfType : UpdateTypeV1 → UpdateResultV2
  | .clearAll => .documentDeletion u64Max
  | .customs => .other
  | .documentsAddition number => .documentsAddition number
  | .documentsPartial number => .documentsAddition number
  | .documentsDeletion number => .documentDeletion number
  | .settings _ => .other

/-- `impl From<v1::update::UpdateStatus> for Option<v2::updates::UpdateStatus>`
(lines 142–218). `Enqueued` source tasks translate to nothing; `Failed` and
`Processed` synthesize the `Processing`/`Enqueued` history, with
`started_processing_at = processed_at - duration` (the
`Duration::from_secs_f64` conversion and `OffsetDateTime` subtraction are
modelled as exact rational arithmetic in seconds). A task whose update kind
has no v2 metadata (the discontinued `Customs` kind) translates to nothing. -/
def updateStatusV1ToV2 : UpdateStatusV1 → Option UpdateStatusV2
  | .enqueued _content => none
  | .failed content =>
    match updateTypeToMetaV2 content.update_type with
    | none => none
    | some meta =>
      some (.failed
        { source :=
            { source :=
                { update_id := content.update_id
                  meta := meta
                  enqueued_at := content.enqueued_at
                  content := none }
              started_processing_at := content.processed_at - content.duration }
          error :=
            { code := statusCodeDefault
              message := content.error.getD ""
              error_code := content.error_code.getD ""
              error_type := content.error_type.getD ""
              error_link := content.error_link.getD "" }
          failed_at := content.processed_at })
  | .processed content =>
    match updateTypeToMetaV2 content.update_type with
    | none => none
    | some meta =>
      some (.processed
        { success := updateResultOfType content.update_type
          processed_at := content.processed_at
          source :=
            { source :=
                { update_id := content.update_id
                  meta := meta
                  enqueued_at := content.enqueued_at
                  content := none }
              started_processing_at := content.processed_at - content.duration } })

/-! ## The v1 native reader (wrapped capability)

The v1 reader itself lives in `dump/src/reader/v1`, outside the given slice;
it is modelled from the spec. -/

/-- A v1 index-listing entry's identity record (v1 has no native uuid, so it
carries only the index name). -/
structure V1IndexUuid where
  uid : String
deriving DecidableEq, Repr

/-- Modelled from the spec: `v1::V1IndexReader`, the per-index native reader
capability — per-index metadata, version-native settings, a document stream
and a per-index task log, each element a value-or-error result. -/
structure V1IndexReader where
  metadata : IndexMetadata
  settings : Except DumpError SettingsV1
  taskLog : List (Except DumpError UpdateStatusV1)
  documents : Except DumpError (List (Except DumpError Document))

/-- Modelled from the spec: `v1::V1Reader`, the native reader capability for
v1 dumps. Its index listing is a single ordered sequence (spec §4.3: tasks
reference their owning index only by implicit listing position, and the
listing order is stable across traversals); each entry carries the index
name and the result of opening that index's reader. `listingError` is a
top-level failure of the listing enumeration itself. -/
structure V1Reader where
  listing : List (String × Except DumpError V1IndexReader)
  listingError : Option DumpError
  creationDate : Option ℚ

/-- Modelled from the spec: `v1::V1Reader::index_uuid` reports the listing's
identity records in listing order. -/
def V1Reader.index_uuid (r : V1Reader) : List V1IndexUuid :=
  r.listing.map (fun e => ⟨e.1⟩)

/-- Modelled from the spec: `v1::V1Reader::indexes` opens each listed index
in listing order; a per-entry open may fail (error item), and the
enumeration itself may fail (top-level error). -/
def V1Reader.indexes (r : V1Reader) :
    Except DumpError (List (Except DumpError V1IndexReader)) :=
  match r.listingError with
  | some err => .error err
  | none => .ok (r.listing.map (fun e => e.2))

/-! ## The adapter (`v1_to_v2.rs` lines 8–101) -/

/-- `CompatV1ToV2`: wraps a v1 reader and exposes the v2 read contract. -/
structure CompatV1ToV2 where
  source : V1Reader

/-- `CompatIndexV1ToV2`: wraps a v1 per-index reader. -/
structure CompatIndexV1ToV2 where
  source : V1IndexReader

/-- `CompatV1ToV2::index_uuid` (lines 29–40): enumerate the wrapped reader's
listing and use each entry's 0-based position, encoded through
`Uuid::from_u128`, as its uuid. -/
def CompatV1ToV2.index_uuid (c : CompatV1ToV2) : List IndexUuidV2 :=
  (c.source.index_uuid).enum.map
    (fun p => { uid := p.2.uid, uuid := Uuid.fromU128 p.1 })

/-- `CompatV1ToV2::indexes` (lines 42–44): wrap each per-index result,
keeping error items as error items. -/
def CompatV1ToV2.indexes (c : CompatV1ToV2) :
    Except DumpError (List (Except DumpError CompatIndexV1ToV2)) :=
  (c.source.indexes).map (fun l => l.map (fun r => r.map (fun ir => ⟨ir⟩)))

/-- The per-task closure of `CompatV1ToV2::tasks` (lines 65–77): a task read
error stays an error item; a task whose translation is `None` (an `Enqueued`
task, or a `Customs`-kind task) is skipped; every translated task is tagged
with the owning index's position-derived uuid and no update file. -/
def translateTaskItem (index : Nat) (task : Except DumpError UpdateStatusV1) :
    Option (Except DumpError (TaskV2 × Option UpdateFileV2)) :=
  match task with
  | .error err => some (.error err)
  | .ok task =>
    match updateStatusV1ToV2 task with
    | none => none
    | some update =>
      some (.ok ({ uuid := Uuid.fromU128 index, update := update }, none))

/-- The per-index body of `CompatV1ToV2::tasks` (lines 55–79): an index that
failed to open contributes a single error item; otherwise its task log is
filtered through the per-task closure. -/
def taskChunk (index : Nat) (reader : Except DumpError V1IndexReader) :
    List (Except DumpError (TaskV2 × Option UpdateFileV2)) :=
  match reader with
  | .error err => [.error err]
  | .ok ir => ir.taskLog.filterMap (translateTaskItem index)

/-- `CompatV1ToV2::tasks` (lines 46–82): a failing index enumeration yields a
single error item; otherwise the per-index task logs are flattened in
listing order. -/
def CompatV1ToV2.tasks (c : CompatV1ToV2) :
    List (Except DumpError (TaskV2 × Option UpdateFileV2)) :=
  match c.source.indexes with
  | .error err => [.error err]
  | .ok indexes => indexes.enum.flatMap (fun p => taskChunk p.1 p.2)

/-- `CompatIndexV1ToV2::metadata` (lines 90–92): pass-through. -/
def CompatIndexV1ToV2.metadata (c : CompatIndexV1ToV2) : IndexMetadata :=
  c.source.metadata

/-- `CompatIndexV1ToV2::documents` (lines 94–96): pass-through. -/
def CompatIndexV1ToV2.documents (c : CompatIndexV1ToV2) :
    Except DumpError (List (Except DumpError Document)) :=
  c.source.documents

/-- `CompatIndexV1ToV2::settings` (lines 98–101): translate the native v1
settings into the v2 `Unchecked` shape, then immediately run the validation
pass, returning a `Checked` value. -/
def CompatIndexV1ToV2.settings (c : CompatIndexV1ToV2) :
    Except DumpError (SettingsV2 .checked) :=
  (c.source.settings).map (fun s => (settingsV1ToV2 s).check)

/-! ## Derived notions used to state the properties -/

/-- Whether a dump-reading result is a success. -/
def exceptIsOk {ε α : Type} : Except ε α → Bool
  | .ok _ => true
  | .error _ => false

/-- A listing entry reads without errors: the index opens and every record of
its task log reads. -/
def entryErrorFree (e : String × Except DumpError V1IndexReader) : Bool :=
  match e.2 with
  | .error _ => false
  | .ok ir => ir.taskLog.all exceptIsOk

/-- A source dump reads without errors: the index enumeration succeeds and
every listing entry reads without errors. -/
def V1Reader.errorFreeB (r : V1Reader) : Bool :=
  r.listingError.isNone && r.listing.all entryErrorFree

/-- The successfully-read source tasks of one listing entry. -/
def okSourceTasks (e : String × Except DumpError V1IndexReader) :
    List UpdateStatusV1 :=
  match e.2 with
  | .error _ => []
  | .ok ir => ir.taskLog.filterMap Except.toOption

/-- All successfully-read source tasks of a dump, in listing order. -/
def V1Reader.sourceTasks (r : V1Reader) : List UpdateStatusV1 :=
  r.listing.flatMap okSourceTasks

/-- The source tasks the v1→v2 conversion keeps: terminal status (`Processed`
or `Failed`) and not of the discontinued `Customs` kind. -/
def UpdateStatusV1.keptByV2 (u : UpdateStatusV1) : Bool :=
  u.isProcessedOrFailed && !(u.updateType == some .customs)

/-! ## Sample data for concrete runs -/

/-- Empty v1 settings. -/
def emptySettingsV1 : SettingsV1 :=
  ⟨none, none, none, none, none, none, none⟩

/-- A per-index reader with no tasks and no documents. -/
def sampleReaderEmpty : V1IndexReader :=
  { metadata := { uid := "a", primaryKey := none }
    settings := .ok emptySettingsV1
    taskLog := []
    documents := .ok [] }

/-- A failed v1 task: processed at t = 10 s after d = 3 s. -/
def failedSample : FailedContentV1 :=
  { update_id := 1, update_type := .clearAll, enqueued_at := 2,
    processed_at := 10, duration := 3,
    error := some "oops", error_code := none, error_type := none,
    error_link := none }

/-- The expected v2 translation of `failedSample`. -/
def failedSampleV2 : FailedV2 :=
  { source :=
      { source :=
          { update_id := 1, meta := .clearDocuments, enqueued_at := 2,
            content := none }
        started_processing_at := 10 - 3 }
    error :=
      { code := statusCodeDefault, message := "oops", error_code := "",
        error_type := "", error_link := "" }
    failed_at := 10 }

/-- A processed v1 documents-deletion task. -/
def processedSample : ProcessedContentV1 :=
  { update_id := 2, update_type := .documentsDeletion 4, enqueued_at := 1,
    processed_at := 10, duration := 3 }

/-- The expected v2 translation of `processedSample`. -/
def processedSampleV2 : ProcessedV2 :=
  { success := .documentDeletion 4
    processed_at := 10
    source :=
      { source :=
          { update_id := 2, meta := .deleteDocuments [], enqueued_at := 1,
            content := none }
        started_processing_at := 10 - 3 } }

/-- v1 settings with a ranking-rule list mixing known rules, the discontinued
rule and an unknown string. -/
def sampleSettingsV1 : SettingsV1 :=
  { displayed_attributes := some (some ["b", "a"])
    searchable_attributes := some none
    attributes_for_faceting := none
    ranking_rules := some (some ["typo", "wordsPosition", "custom", "desc(price)"])
    stop_words := none
    synonyms := none
    distinct_attribute := some (some "id") }

/-- A per-index reader carrying `sampleSettingsV1`. -/
def sampleIndexReader : V1IndexReader :=
  { metadata := { uid := "movies", primaryKey := some "id" }
    settings := .ok sampleSettingsV1
    taskLog := []
    documents := .ok [] }

/-- A two-index dump. -/
def sampleCompat2 : CompatV1ToV2 :=
  ⟨{ listing := [("a", .ok sampleReaderEmpty), ("b", .ok sampleReaderEmpty)]
     listingError := none
     creationDate := none }⟩

/-- A processed clear-all task, owned by the only index of `compat6`. -/
def procTask6 : ProcessedContentV1 :=
  { update_id := 7, update_type := .clearAll, enqueued_at := 0,
    processed_at := 5, duration := 2 }

/-- A per-index reader whose task log holds `procTask6`. -/
def reader6 : V1IndexReader :=
  { metadata := { uid := "idx", primaryKey := none }
    settings := .ok emptySettingsV1
    taskLog := [.ok (.processed procTask6)]
    documents := .ok [] }

/-- A one-index dump whose task log holds `procTask6`. -/
def compat6 : CompatV1ToV2 :=
  ⟨{ listing := [("idx", .ok reader6)], listingError := none,
     creationDate := none }⟩

/-- The expected v2 translation of `procTask6`, linked to index position 0. -/
def task6 : TaskV2 :=
  { uuid := Uuid.fromU128 0
    update := .processed
      { success := .documentDeletion u64Max
        processed_at := 5
        source :=
          { source :=
              { update_id := 7, meta := .clearDocuments, enqueued_at := 0,
                content := none }
            started_processing_at := 5 - 2 } } }

/-- The error raised when opening index #2 of `compat7`. -/
def err7 : DumpError := ⟨"open failed"⟩

/-- A five-entry listing whose entry #2 fails to open. -/
def listing7 : List (String × Except DumpError V1IndexReader) :=
  [("i0", .ok sampleReaderEmpty), ("i1", .ok sampleReaderEmpty),
   ("i2", .error err7), ("i3", .ok sampleReaderEmpty),
   ("i4", .ok sampleReaderEmpty)]

/-- A five-index dump whose index #2 fails to open. -/
def compat7 : CompatV1ToV2 :=
  ⟨{ listing := listing7, listingError := none, creationDate := none }⟩

/-- The per-index results of `compat7`'s source. -/
def results7 : List (Except DumpError V1IndexReader) :=
  listing7.map (fun e => e.2)

/-- The wrapped per-index results `compat7.indexes` yields. -/
def results7V2 : List (Except DumpError CompatIndexV1ToV2) :=
  results7.map (fun r => r.map (fun ir => ⟨ir⟩))

/-- A processed task of the discontinued `Customs` kind. -/
def customsTask : ProcessedContentV1 :=
  { update_id := 3, update_type := .customs, enqueued_at := 0,
    processed_at := 4, duration := 1 }

/-- A per-index reader whose task log holds only `customsTask`. -/
def readerCex : V1IndexReader :=
  { metadata := { uid := "idx", primaryKey := none }
    settings := .ok emptySettingsV1
    taskLog := [.ok (.processed customsTask)]
    documents := .ok [] }

/-- A one-index dump whose only source task is a processed `Customs` task. -/
def compatCex : CompatV1ToV2 :=
  ⟨{ listing := [("idx", .ok readerCex)], listingError := none,
     creationDate := none }⟩

/-! ## Theorems -/

/-- Claim C5: the tri-state field-update translation is a value-preserving
isomorphism: for every field type and value, `Nothing` maps to the no-change
marker (`none`), `Clear` to the present-but-empty marker (`some none`), and
`Update(v)` to the present-with-value marker (`some (some v)`) carrying `v`
unchanged; the three images are pairwise distinct. -/
theorem tri_state_translation_iso {α : Type} (v : α) :
    updateStateToV2 (.update v) = some (some v) ∧
    (updateStateToV2 .clear : Option (Option α)) = some none ∧
    (updateStateToV2 .nothing : Option (Option α)) = none ∧
    updateStateToV2 (.update v) ≠ (updateStateToV2 .clear : Option (Option α)) ∧
    updateStateToV2 (.update v) ≠ (updateStateToV2 .nothing : Option (Option α)) ∧
    (updateStateToV2 .clear : Option (Option α)) ≠ updateStateToV2 .nothing := by
  refine ⟨rfl, rfl, rfl, ?_, ?_, ?_⟩ <;> simp [updateStateToV2]

/-- Witness for C5 at the concrete value `["a", "b"]`. -/
theorem tri_state_translation_iso_witness :
    updateStateToV2 (.update ["a", "b"]) = some (some ["a", "b"]) ∧
    (updateStateToV2 .clear : Option (Option (List String))) = some none ∧
    (updateStateToV2 .nothing : Option (Option (List String))) = none :=
  ⟨(tri_state_translation_iso ["a", "b"]).1,
   (tri_state_translation_iso ["a", "b"]).2.1,
   (tri_state_translation_iso ["a", "b"]).2.2.1⟩

/-- Claim C4: ranking-rule translation is element-wise and order-preserving:
each named rule maps to its namesake criterion (Asc/Desc carry the field
name through), only the discontinued WordsPosition rule maps to nothing, a
singleton list translates to the rendering of its rule's image, translation
distributes over concatenation (hence relative order of survivors is the
source order with drops removed), and
`[Typo, WordsPosition, Desc("price")]` translates to `[Typo, Desc("price")]`. -/
theorem ranking_rule_translation_order_preserving :
    (rankingRuleToCriterion .typo = some .typo ∧
     rankingRuleToCriterion .words = some .words ∧
     rankingRuleToCriterion .proximity = some .proximity ∧
     rankingRuleToCriterion .attribute = some .attribute ∧
     rankingRuleToCriterion .exactness = some .exactness ∧
     (∀ f, rankingRuleToCriterion (.asc f) = some (.asc f)) ∧
     (∀ f, rankingRuleToCriterion (.desc f) = some (.desc f)) ∧
     rankingRuleToCriterion .wordsPosition = none) ∧
    (∀ r : RankingRuleV1,
        translateRankingRules [r]
          = ((rankingRuleToCriterion r).map CriterionV2.render).toList) ∧
    (∀ l1 l2 : List RankingRuleV1,
        translateRankingRules (l1 ++ l2)
          = translateRankingRules l1 ++ translateRankingRules l2) ∧
    translateRankingRules [.typo, .wordsPosition, .desc "price"]
      = [CriterionV2.typo, CriterionV2.desc "price"].map CriterionV2.render := by
  refine ⟨⟨rfl, rfl, rfl, rfl, rfl, fun f => rfl, fun f => rfl, rfl⟩, ?_, ?_, rfl⟩
  · intro r
    cases hr : rankingRuleToCriterion r <;>
      simp [translateRankingRules, List.filterMap_cons, hr]
  · intro l1 l2
    simp [translateRankingRules, List.filterMap_append]

/-- Witness for C4 at the concrete field `"price"` and the spec's example
list split as `[Typo] ++ [WordsPosition, Desc("price")]`. -/
theorem ranking_rule_translation_order_preserving_witness :
    rankingRuleToCriterion (.desc "price") = some (.desc "price") ∧
    translateRankingRules ([.typo] ++ [.wordsPosition, .desc "price"])
      = translateRankingRules [.typo]
        ++ translateRankingRules [.wordsPosition, .desc "price"] :=
  ⟨ranking_rule_translation_order_preserving.1.2.2.2.2.2.2.1 "price",
   ranking_rule_translation_order_preserving.2.2.1 [.typo] [.wordsPosition, .desc "price"]⟩

/-- Claim C10: in the checked-settings translation path, a ranking-rule
string that fails to parse as a known v1 rule is kept verbatim; a string
that parses goes through the rule-to-criterion mapping (possibly being
dropped); and the settings translator applies exactly this per-string
function element-wise to a present ranking-rule list. -/
theorem unknown_ranking_rule_kept_verbatim :
    (∀ s : String, rankingRuleFromStr s = .error () →
        translateRankingRuleStr s = some s) ∧
    (∀ (s : String) (r : RankingRuleV1), rankingRuleFromStr s = .ok r →
        translateRankingRuleStr s = (rankingRuleToCriterion r).map CriterionV2.render) ∧
    (∀ (s : SettingsV1) (rules : List String),
        s.ranking_rules = some (some rules) →
        (settingsV1ToV2 s).ranking_rules
          = some (some (rules.filterMap translateRankingRuleStr))) := by
  refine ⟨?_, ?_, ?_⟩
  · intro s h; simp [translateRankingRuleStr, h]
  · intro s r h; simp [translateRankingRuleStr, h]
  · intro s rules h; simp [settingsV1ToV2, h]

/-- Witness for C10 at the unparseable string `"dsc(price)"`. -/
theorem unknown_ranking_rule_kept_verbatim_witness :
    rankingRuleFromStr "dsc(price)" = .error () ∧
    translateRankingRuleStr "dsc(price)" = some "dsc(price)" :=
  ⟨by decide, unknown_ranking_rule_kept_verbatim.1 "dsc(price)" (by decide)⟩

/-- Claim C3: for every Failed or Processed source task with
`processed_at = T` and duration `d`, the translated task's
`started_processing_at` equals exactly `T - d`. -/
theorem started_processing_exact_subtraction :
    (∀ (c : FailedContentV1) (f : FailedV2),
        updateStatusV1ToV2 (.failed c) = some (.failed f) →
        f.source.started_processing_at = c.processed_at - c.duration) ∧
    (∀ (c : ProcessedContentV1) (p : ProcessedV2),
        updateStatusV1ToV2 (.processed c) = some (.processed p) →
        p.source.started_processing_at = c.processed_at - c.duration) := by
  constructor
  · intro c f h
    cases hm : updateTypeToMetaV2 c.update_type with
    | none => simp [updateStatusV1ToV2, hm] at h
    | some meta =>
      simp [updateStatusV1ToV2, hm] at h
      rw [← h]
  · intro c p h
    cases hm : updateTypeToMetaV2 c.update_type with
    | none => simp [updateStatusV1ToV2, hm] at h
    | some meta =>
      simp [updateStatusV1ToV2, hm] at h
      rw [← h]

/-- Witness for C3 at a concrete failed task with T = 10 s and d = 3 s. -/
theorem started_processing_exact_subtraction_witness :
    updateStatusV1ToV2 (.failed failedSample) = some (.failed failedSampleV2) ∧
    failedSampleV2.source.started_processing_at
      = failedSample.processed_at - failedSample.duration :=
  ⟨rfl, started_processing_exact_subtraction.1 failedSample failedSampleV2 rfl⟩

/-- Claim C9: the outcome payload of a translated Processed task depends only
on the original update kind: clear-all yields a deletion outcome with the
maximum representable count, both addition kinds yield an addition outcome
with the reported count, documents-deletion yields a deletion outcome with
the reported count, and a settings update yields the opaque other outcome. -/
theorem processed_outcome_by_kind :
    (∀ (c : ProcessedContentV1) (p : ProcessedV2),
        updateStatusV1ToV2 (.processed c) = some (.processed p) →
        p.success = updateResultOfType c.update_type) ∧
    updateResultOfType .clearAll = .documentDeletion u64Max ∧
    (∀ n, updateResultOfType (.documentsAddition n) = .documentsAddition n) ∧
    (∀ n, updateResultOfType (.documentsPartial n) = .documentsAddition n) ∧
    (∀ n, updateResultOfType (.documentsDeletion n) = .documentDeletion n) ∧
    (∀ s, updateResultOfType (.settings s) = .other) := by
  refine ⟨?_, rfl, fun n => rfl, fun n => rfl, fun n => rfl, fun s => rfl⟩
  intro c p h
  cases hm : updateTypeToMetaV2 c.update_type with
  | none => simp [updateStatusV1ToV2, hm] at h
  | some meta =>
    simp [updateStatusV1ToV2, hm] at h
    rw [← h]

/-- Witness for C9 at a concrete processed documents-deletion task. -/
theorem processed_outcome_by_kind_witness :
    updateStatusV1ToV2 (.processed processedSample) = some (.processed processedSampleV2) ∧
    processedSampleV2.success = updateResultOfType processedSample.update_type :=
  ⟨rfl, processed_outcome_by_kind.1 processedSample processedSampleV2 rfl⟩

/-- Claim C8: the per-index `settings()` is the translation of the native v1
settings into the v2 Unchecked shape followed immediately by the validation
pass, so the returned value is of the `Checked` type (the translator itself
produces only `Unchecked` values, as its Lean type shows). -/
theorem settings_checked_on_return :
    (∀ c : CompatIndexV1ToV2,
        c.settings = (c.source.settings).map (fun s => SettingsV2.check (settingsV1ToV2 s))) ∧
    (∀ (c : CompatIndexV1ToV2) (s : SettingsV1),
        c.source.settings = .ok s →
        c.settings = .ok (SettingsV2.check (settingsV1ToV2 s))) := by
  constructor
  · intro c; rfl
  · intro c s h; simp [CompatIndexV1ToV2.settings, h, Except.map]

/-- Witness for C8 at a concrete per-index reader. -/
theorem settings_checked_on_return_witness :
    (CompatIndexV1ToV2.mk sampleIndexReader).settings
      = .ok (SettingsV2.check (settingsV1ToV2 sampleSettingsV1)) :=
  settings_checked_on_return.2 ⟨sampleIndexReader⟩ sampleSettingsV1 rfl

/-- Claim C2: `index_uuid()` has one entry per source listing entry, in the
same order, keeping each source uid; the i-th entry's uuid is the
deterministic encoding of i; the uuids are pairwise distinct (as long as the
listing fits the 128-bit identifier space, which any real listing does); and
the output is a function of the unmutated source, so two calls agree. -/
theorem index_uuid_positional (c : CompatV1ToV2) :
    (c.index_uuid).length = (c.source.index_uuid).length ∧
    (∀ i : Nat, ((c.index_uuid)[i]?).map IndexUuidV2.uid
        = ((c.source.index_uuid)[i]?).map V1IndexUuid.uid) ∧
    (∀ i : Nat, i < (c.source.index_uuid).length →
        ((c.index_uuid)[i]?).map IndexUuidV2.uuid = some (Uuid.fromU128 i)) ∧
    ((c.source.index_uuid).length ≤ 2 ^ 128 →
      ∀ i j : Nat, i < (c.index_uuid).length → j < (c.index_uuid).length →
        i ≠ j →
        ((c.index_uuid)[i]?).map IndexUuidV2.uuid
          ≠ ((c.index_uuid)[j]?).map IndexUuidV2.uuid) ∧
    (∀ c' : CompatV1ToV2, c.source = c'.source → c.index_uuid = c'.index_uuid) := by
  have hlen : (c.index_uuid).length = (c.source.index_uuid).length := by
    simp [CompatV1ToV2.index_uuid]
  have huuid : ∀ i : Nat, i < (c.source.index_uuid).length →
      ((c.index_uuid)[i]?).map IndexUuidV2.uuid = some (Uuid.fromU128 i) := by
    intro i hi
    simp [CompatV1ToV2.index_uuid, List.getElem?_map, List.getElem?_enum,
      List.getElem?_eq_getElem hi]
  refine ⟨hlen, ?_, huuid, ?_, ?_⟩
  · intro i
    simp [CompatV1ToV2.index_uuid, List.getElem?_map, List.getElem?_enum]
    cases h : (c.source.index_uuid)[i]? <;> simp [h]
  · intro hN i j hi hj hij
    rw [hlen] at hi hj
    rw [huuid i hi, huuid j hj]
    intro hcon
    apply hij
    have huv : Uuid.fromU128 i = Uuid.fromU128 j := Option.some.inj hcon
    have hval : i % 2 ^ 128 = j % 2 ^ 128 := congrArg Uuid.val huv
    rwa [Nat.mod_eq_of_lt (lt_of_lt_of_le hi hN),
      Nat.mod_eq_of_lt (lt_of_lt_of_le hj hN)] at hval
  · intro c' h
    unfold CompatV1ToV2.index_uuid V1Reader.index_uuid
    rw [h]

/-- Witness for C2 on a concrete two-index dump: the two assigned uuids
differ. -/
theorem index_uuid_positional_witness :
    ((sampleCompat2.index_uuid)[0]?).map IndexUuidV2.uuid
      ≠ ((sampleCompat2.index_uuid)[1]?).map IndexUuidV2.uuid :=
  (index_uuid_positional sampleCompat2).2.2.2.1 (by decide) 0 1 (by decide)
    (by decide) (by decide)

/-- Claim C7: when the index enumeration itself succeeds, `indexes()` also
succeeds (never a fatal error), yields exactly one item per source item,
keeps every per-index open error as an error item at its original position,
and wraps every successfully opened index at its original position. -/
theorem indexes_partial_failure (c : CompatV1ToV2)
    (L : List (Except DumpError V1IndexReader)) (h : c.source.indexes = .ok L) :
    (∀ L2, c.indexes = .ok L2 →
        L2.length = L.length ∧
        (∀ (k : Nat) (err : DumpError),
            L[k]? = some (.error err) → L2[k]? = some (.error err)) ∧
        (∀ (k : Nat) (ir : V1IndexReader),
            L[k]? = some (.ok ir) → L2[k]? = some (.ok ⟨ir⟩))) ∧
    (∃ L2, c.indexes = .ok L2) := by
  have hx : c.indexes = .ok (L.map (fun r => r.map (fun ir => ⟨ir⟩))) := by
    simp [CompatV1ToV2.indexes, h, Except.map]
  constructor
  · intro L2 h2
    rw [hx] at h2
    have hL2 : L2 = L.map (fun r => r.map (fun ir => ⟨ir⟩)) :=
      (Except.ok.inj h2).symm
    subst hL2
    refine ⟨by simp, ?_, ?_⟩
    · intro k err hk; simp [List.getElem?_map, hk, Except.map]
    · intro k ir hk; simp [List.getElem?_map, hk, Except.map]
  · exact ⟨_, hx⟩

/-- Witness for C7 on a concrete five-index dump whose index #2 fails to
open: the output has five items, item #2 is the error item and item #3 is a
valid entry. -/
theorem indexes_partial_failure_witness :
    results7V2.length = results7.length ∧
    results7V2[2]? = some (.error err7) ∧
    results7V2[3]? = some (.ok ⟨sampleReaderEmpty⟩) := by
  have T := indexes_partial_failure compat7 results7 rfl
  have h2 : compat7.indexes = .ok results7V2 := rfl
  exact ⟨(T.1 results7V2 h2).1, (T.1 results7V2 h2).2.1 2 err7 rfl,
    (T.1 results7V2 h2).2.2 3 sampleReaderEmpty rfl⟩

/-- Claim C6: `tasks()` flattens the per-index chunks in listing order, and
every translated task produced by the chunk of listing position i carries
exactly the uuid that `index_uuid()` assigns to its i-th entry — the same
position-to-identifier function links the two. -/
theorem tasks_linked_by_position_uuid (c : CompatV1ToV2) :
    (∀ L, c.source.indexes = .ok L →
        c.tasks = L.enum.flatMap (fun p => taskChunk p.1 p.2)) ∧
    (∀ (i : Nat) (hi : i < (c.index_uuid).length)
       (r : Except DumpError V1IndexReader) (t : TaskV2)
       (f : Option UpdateFileV2),
        .ok (t, f) ∈ taskChunk i r →
        t.uuid = ((c.index_uuid).get ⟨i, hi⟩).uuid) := by
  constructor
  · intro L h
    unfold CompatV1ToV2.tasks
    rw [h]
  · intro i hi r t f hmem
    have huuid : ((c.index_uuid).get ⟨i, hi⟩).uuid = Uuid.fromU128 i := by
      simp [CompatV1ToV2.index_uuid, List.get_eq_getElem, List.getElem_map,
        List.getElem_enum]
    rw [huuid]
    cases r with
    | error err => simp [taskChunk] at hmem
    | ok ir =>
      simp only [taskChunk] at hmem
      obtain ⟨task, _htask, heq⟩ := List.mem_filterMap.mp hmem
      cases task with
      | error e => simp [translateTaskItem] at heq
      | ok u =>
        cases hu : updateStatusV1ToV2 u with
        | none => simp [translateTaskItem, hu] at heq
        | some upd =>
          simp [translateTaskItem, hu] at heq
          obtain ⟨ht, _⟩ := heq
          rw [← ht]

/-- Witness for C6 on a concrete one-index dump: the translated task carries
the uuid of `index_uuid()`'s entry 0. -/
theorem tasks_linked_by_position_uuid_witness :
    task6.uuid = ((compat6.index_uuid).get ⟨0, by decide⟩).uuid :=
  (tasks_linked_by_position_uuid compat6).2 0 (by decide) (.ok reader6) task6 none
    (List.mem_singleton.mpr rfl)

/-- A source task translates to an output item exactly when it is terminal
(`Processed` or `Failed`) and not of the discontinued `Customs` kind. -/
theorem keptByV2_iff_translation_isSome (u : UpdateStatusV1) :
    (updateStatusV1ToV2 u).isSome = u.keptByV2 := by
  cases u with
  | enqueued e => rfl
  | failed c =>
    cases hc : c.update_type <;>
      simp [updateStatusV1ToV2, updateTypeToMetaV2, UpdateStatusV1.keptByV2,
        UpdateStatusV1.isProcessedOrFailed, UpdateStatusV1.updateType, hc]
  | processed c =>
    cases hc : c.update_type <;>
      simp [updateStatusV1ToV2, updateTypeToMetaV2, UpdateStatusV1.keptByV2,
        UpdateStatusV1.isProcessedOrFailed, UpdateStatusV1.updateType, hc]

/-- On an error-free task log, the translated chunk has one item per kept
source task. -/
theorem chunk_length_eq (i : Nat) (log : List (Except DumpError UpdateStatusV1))
    (h : log.all exceptIsOk = true) :
    (log.filterMap (translateTaskItem i)).length
      = ((log.filterMap Except.toOption).filter UpdateStatusV1.keptByV2).length := by
  induction log with
  | nil => rfl
  | cons t ts ih =>
    rw [List.all_cons, Bool.and_eq_true] at h
    obtain ⟨h1, h2⟩ := h
    cases t with
    | error e => simp [exceptIsOk] at h1
    | ok u =>
      have hkept := keptByV2_iff_translation_isSome u
      rw [List.filterMap_cons, List.filterMap_cons]
      cases hu : updateStatusV1ToV2 u with
      | none =>
        rw [hu] at hkept
        simp only [translateTaskItem, hu, Except.toOption, List.filter_cons,
          ← hkept, Option.isSome_none, Bool.false_eq_true, if_false]
        exact ih h2
      | some v =>
        rw [hu] at hkept
        simp only [translateTaskItem, hu, Except.toOption, List.filter_cons,
          ← hkept, Option.isSome_some, if_true, List.length_cons]
        rw [ih h2]

/-- The chunk of a successfully opened, error-free listing entry has one
item per kept source task of that entry. -/
theorem chunk_ok_length (n : Nat) (e : String × Except DumpError V1IndexReader)
    (ir : V1IndexReader) (he : e.2 = .ok ir)
    (h1 : ir.taskLog.all exceptIsOk = true) :
    (taskChunk n e.2).length
      = ((okSourceTasks e).filter UpdateStatusV1.keptByV2).length := by
  unfold taskChunk okSourceTasks
  rw [he]
  exact chunk_length_eq n ir.taskLog h1

/-- Flattening the chunks of an error-free listing yields one item per kept
source task, whatever the starting enumeration position. -/
theorem tasks_flat_length (L : List (String × Except DumpError V1IndexReader))
    (n : Nat) (h : L.all entryErrorFree = true) :
    (((L.map (fun e => e.2)).enumFrom n).flatMap (fun p => taskChunk p.1 p.2)).length
      = ((L.flatMap okSourceTasks).filter UpdateStatusV1.keptByV2).length := by
  induction L generalizing n with
  | nil => rfl
  | cons e L ih =>
    rw [List.all_cons, Bool.and_eq_true] at h
    obtain ⟨h1, h2⟩ := h
    cases he : e.2 with
    | error err => rw [entryErrorFree, he] at h1; simp at h1
    | ok ir =>
      rw [entryErrorFree, he] at h1
      simp only [List.map_cons, List.enumFrom_cons, List.flatMap_cons,
        List.filter_append, List.length_append]
      congr 1
      · exact chunk_ok_length n e ir he h1
      · exact ih (n + 1) h2

/-- Claim C1 (amended): on an error-free dump, the number of items `tasks()`
yields equals the number of Processed-or-Failed source tasks that are not of
the discontinued Customs kind; a task translates to an output item exactly
when it is so kept, an Enqueued task translates to nothing, and a task of
the Customs kind translates to nothing even when Processed or Failed. -/
theorem tasks_count_amended (c : CompatV1ToV2)
    (h : c.source.errorFreeB = true) :
    (c.tasks).length
      = ((c.source.sourceTasks).filter UpdateStatusV1.keptByV2).length ∧
    (∀ u : UpdateStatusV1, (updateStatusV1ToV2 u).isSome = u.keptByV2) ∧
    (∀ e : EnqueuedContentV1, updateStatusV1ToV2 (.enqueued e) = none) ∧
    (∀ u : UpdateStatusV1, u.updateType = some .customs →
        updateStatusV1ToV2 u = none) := by
  rw [V1Reader.errorFreeB, Bool.and_eq_true] at h
  obtain ⟨hnone, hall⟩ := h
  have hnone2 : c.source.listingError = none := Option.isNone_iff_eq_none.mp hnone
  have hidx : c.source.indexes = .ok (c.source.listing.map (fun e => e.2)) := by
    unfold V1Reader.indexes
    rw [hnone2]
  refine ⟨?_, keptByV2_iff_translation_isSome, fun e => rfl, ?_⟩
  · unfold CompatV1ToV2.tasks
    rw [hidx]
    unfold V1Reader.sourceTasks
    exact tasks_flat_length c.source.listing 0 hall
  · intro u hu
    cases u with
    | enqueued e => rfl
    | failed c2 =>
      rw [UpdateStatusV1.updateType] at hu
      have := Option.some.inj hu
      simp [updateStatusV1ToV2, updateTypeToMetaV2, this]
    | processed c2 =>
      rw [UpdateStatusV1.updateType] at hu
      have := Option.some.inj hu
      simp [updateStatusV1ToV2, updateTypeToMetaV2, this]

/-- Witness for the amended C1 on a concrete error-free one-index dump. -/
theorem tasks_count_amended_witness :
    (compat6.tasks).length
      = ((compat6.source.sourceTasks).filter UpdateStatusV1.keptByV2).length :=
  (tasks_count_amended compat6 (by decide)).1

/-- Counterexample to C1 as stated: on a dump whose only source task is a
Processed task of the discontinued Customs kind, `tasks()` yields no item,
while the count of Processed-or-Failed source tasks is one — so the output
count does not equal the count of Processed-or-Failed source tasks. -/
theorem tasks_count_cex :
    ¬ ((compatCex.tasks).length
        = ((compatCex.source.sourceTasks).filter
            UpdateStatusV1.isProcessedOrFailed).length) := by
  decide

end MeiliDump
